import Mathlib

/-!
A shallow embedding of the core transaction-construction, fee-calculation and
event-polling logic of PyEthHelper (src/PyEthHelper/EthContractHelper.py and
src/PyEthHelper/ContractEventHelper.py), together with theorems settling the
claims the specification makes about it.

External collaborators (the web3 chain client, the signing primitive, the
log-query endpoint) are passed in as explicit environments; the arithmetic
and control flow of the Python code is translated function by function.
-/

namespace PyEthHelper

/-- Error outcomes raised by the embedded code paths. -/
inductive Err where
  | insufficientBalance (balance maxCost : ℕ)
  | cancelled
  | keyMismatch
  | missingField
  | noConstructor
  | funcNotFound (name : String)
  deriving DecidableEq, Repr

/-- Embeds `DefaultFeeCalculator` (EthContractHelper.py lines 145-155):
`maxPriorFee = (ethGasPrice * 2) // 100`, then
`maxPriorFee = max(maxPriorFee, ethMaxPriorityFee)`, returning
`(maxPriorFee, ethGasPrice + maxPriorFee)`. Inputs are non-negative wei
amounts, so they are embedded as `ℕ`; Python `//` on non-negative ints is
`Nat` division. -/
def DefaultFeeCalculator (ethGasPrice ethMaxPriorityFee : ℕ) : ℕ × ℕ :=
  let maxPriorFee := (ethGasPrice * 2) / 100
  let maxPriorFee := max maxPriorFee ethMaxPriorityFee
  (maxPriorFee, ethGasPrice + maxPriorFee)

/-- The IEEE-754 binary64 value nearest to the literal `1.1`, scaled by
`2^52`: `1.1` is stored as `0x1.199999999999ap+0 = 4953959590107546 / 2^52`. -/
def float11Sig : ℕ := 4953959590107546

/-- Helper for `bitLen`: structural recursion on a fuel argument so that the
kernel can evaluate it on concrete inputs. -/
def bitLenAux : ℕ → ℕ → ℕ
  | 0, _ => 0
  | fuel + 1, n => if n = 0 then 0 else bitLenAux fuel (n / 2) + 1

/-- Number of bits of `n` (`0` for `n = 0`). -/
def bitLen (n : ℕ) : ℕ := bitLenAux n n

/-- Round `p / 2^k` to the nearest integer, ties to even — the rounding used
both by the CPython int-to-float conversion and by binary64 multiplication. -/
def rne (p k : ℕ) : ℕ :=
  let q := p / 2 ^ k
  let r := p % 2 ^ k
  if 2 * r < 2 ^ k then q
  else if 2 * r > 2 ^ k then q + 1
  else if q % 2 = 0 then q else q + 1

/-- The binary64 double nearest to the non-negative integer `n` (as an
integer: for `n` of at most 53 bits this is `n` itself, otherwise `n`
rounded to 53 significant bits). This is the CPython conversion float(n). -/
def toFloat64 (n : ℕ) : ℕ :=
  let drop := bitLen n - 53
  rne n drop * 2 ^ drop

/-- The Python expression `int(n * 1.1)` for a non-negative int `n`: convert `n` to
binary64, multiply by the double nearest `1.1` (one round-to-nearest-even of
the exact product to 53 significant bits), then truncate to an integer.
All quantities are kept scaled by `2^52` so the computation is exact. -/
def pyIntTimes11 (n : ℕ) : ℕ :=
  let p := toFloat64 n * float11Sig
  let drop := bitLen p - 53
  let pr := rne p drop * 2 ^ drop
  pr / 2 ^ 52

/-- Embeds `_EstimateGas` (lines 114-127): queries the estimator, then
`gas = int(gas * 1.1)`. The answer of the estimator for the given value is
supplied by the environment as `estimate`. -/
def _EstimateGas (estimate : ℕ) : ℕ :=
  pyIntTimes11 estimate

/-- Embeds `_DetermineGas` (lines 130-142): an explicit gas limit is returned
unchanged; otherwise the inflated estimate is used. -/
def _DetermineGas (gas : Option ℕ) (estimate : ℕ) : ℕ :=
  match gas with
  | some g => g
  | none => _EstimateGas estimate

/-- The unsigned transaction message assembled by `_FillMessage`
(lines 158-180): `nonce`, `chainId`, `gas`, `value` always; the two fee
fields only on the signing path. -/
structure TxMsg where
  nonce : ℕ
  chainId : ℕ
  gas : ℕ
  value : ℕ
  maxPriorityFeePerGas : Option ℕ := none
  maxFeePerGas : Option ℕ := none
  deriving DecidableEq, Repr

/-- The chain state `_FillMessage` reads through `w3`. -/
structure ChainEnv where
  txCount : ℕ
  chainId : ℕ
  gasPrice : ℕ
  maxPriorityFee : ℕ

/-- Embeds `_FillMessage` (lines 158-180): populate `nonce`, `chainId`, `gas`,
`value`; when `privKey is not None`, call the fee calculator on the live
gas price and priority-fee floor and attach both fee fields. -/
def _FillMessage (env : ChainEnv) (gas value : ℕ) (privKey : Option String)
    (feeCalculator : ℕ → ℕ → ℕ × ℕ) : TxMsg :=
  let msg : TxMsg :=
    { nonce := env.txCount, chainId := env.chainId, gas := gas, value := value }
  match privKey with
  | none => msg
  | some _ =>
    let fees := feeCalculator env.gasPrice env.maxPriorityFee
    { msg with maxPriorityFeePerGas := some fees.1, maxFeePerGas := some fees.2 }

/-- The environment `_SignTx` interacts with: the balance of the sending account, the
response a user would give to the confirmation prompt, the external signing
primitive, and (for reference) the address-derivation primitive together
with the declared sender of the transaction — which `_SignTx` itself never
consults. -/
structure SignEnv where
  balance : ℕ
  userConfirms : Bool
  signedOf : TxMsg → String → String
  derivedAddr : String → String
  sender : String

/-- Embeds `_SignTx` (lines 183-252): read the two fee fields, `gas` and `value`
from the transaction (a missing fee field is a lookup failure), compute
`maxCost = (maxFeePerGas + maxPriorityFeePerGas) * gas + value`, raise if
`maxCost > balance`, then (optionally) prompt for confirmation, and sign.
No address or key check is performed here. -/
def _SignTx (env : SignEnv) (tx : TxMsg) (privKey : String)
    (confirmPrompt : Bool) : Except Err String :=
  match tx.maxFeePerGas, tx.maxPriorityFeePerGas with
  | some maxBaseFee, some maxPriorityFee =>
    let maxFee := (maxBaseFee + maxPriorityFee) * tx.gas
    let maxCost := maxFee + tx.value
    if maxCost > env.balance then
      .error (Err.insufficientBalance env.balance maxCost)
    else if confirmPrompt && !env.userConfirms then
      .error Err.cancelled
    else
      .ok (env.signedOf tx privKey)
  | _, _ => .error Err.missingField

/-- Embeds `SetupSendingAccount` (lines 422-450): with a key file, load the
address/key pair at the requested index, make the address the default
account, and raise when the address derived from the key differs from it;
without a key file, use the first node account and no key. -/
def SetupSendingAccount (derivedAddr : String → String) (nodeAccount0 : String)
    (cred : Option (String × String)) : Except Err (String × Option String) :=
  match cred with
  | none => .ok (nodeAccount0, none)
  | some (addr, privKey) =>
    if derivedAddr privKey ≠ addr then .error Err.keyMismatch
    else .ok (addr, some privKey)

/-- What `_DoTransaction` (lines 255-290) hands to the node: either a
message submitted through the managed-account path of the node
(`executable.transact(msg)`), or raw signed bytes (`send_raw_transaction`)
of a transaction built from the message. -/
inductive Submission where
  | delegated (msg : TxMsg)
  | raw (signedBytes : String) (msg : TxMsg)
  deriving DecidableEq, Repr

/-- The message whose fields a submission carries. -/
def Submission.msg : Submission → TxMsg
  | .delegated m => m
  | .raw _ m => m

/-- The environment for one `_DoTransaction` run: the chain state read by
`_FillMessage`, the answer of the gas estimator as a function of the supplied
value, and the signing environment. -/
structure DoTxEnv where
  chain : ChainEnv
  estimateFor : ℕ → ℕ
  sign : SignEnv

/-- Embeds `_DoTransaction` (lines 255-290): resolve gas, fill the message, then
either submit through the node (no key) or sign locally and submit raw. The
environment-supplied receipt wait is outside this embedding; the submission
carries everything the repository code determined. -/
def _DoTransaction (env : DoTxEnv) (privKey : Option String) (gas : Option ℕ)
    (value : ℕ) (confirmPrompt : Bool) (feeCalculator : ℕ → ℕ → ℕ × ℕ) :
    Except Err Submission :=
  let g := _DetermineGas gas (env.estimateFor value)
  let msg := _FillMessage env.chain g value privKey feeCalculator
  match privKey with
  | none => .ok (.delegated msg)
  | some k =>
    match _SignTx env.sign msg k confirmPrompt with
    | .error e => .error e
    | .ok s => .ok (.raw s msg)

/-- One entry of a contract ABI, with the fields the code inspects. -/
structure AbiEntry where
  type : String
  name : String := ""
  stateMutability : String := ""
  deriving DecidableEq, Repr

/-- Embeds `_FindConstructorAbi` (lines 293-300): first entry of type
`constructor`, else an error. -/
def _FindConstructorAbi : List AbiEntry → Except Err AbiEntry
  | [] => .error Err.noConstructor
  | e :: rest =>
    if e.type = "constructor" then .ok e else _FindConstructorAbi rest

/-- Embeds `_FindFuncAbi` (lines 333-344): first entry of type `function` with the
given name, else an error. -/
def _FindFuncAbi (funcName : String) : List AbiEntry → Except Err AbiEntry
  | [] => .error (Err.funcNotFound funcName)
  | e :: rest =>
    if e.type = "function" ∧ e.name = funcName then .ok e
    else _FindFuncAbi funcName rest

/-- Embeds `DeployContract` (lines 303-330): look up the constructor ABI, check
payability, and run `_DoTransaction` with `value if isPayable else 0`. -/
def DeployContract (env : DoTxEnv) (abi : List AbiEntry)
    (privKey : Option String) (gas : Option ℕ) (value : ℕ)
    (confirmPrompt : Bool) (feeCalculator : ℕ → ℕ → ℕ × ℕ) :
    Except Err Submission :=
  match _FindConstructorAbi abi with
  | .error e => .error e
  | .ok constrAbi =>
    let isPayable := constrAbi.stateMutability = "payable"
    _DoTransaction env privKey gas (if isPayable then value else 0)
      confirmPrompt feeCalculator

/-- Outcome of `CallContractFunc`: the decoded value of a read-only
`executable.call()`, or the submission of a full transaction (whose receipt
is what the caller gets back). -/
inductive CallResult where
  | viewResult (v : String)
  | txSubmission (s : Submission)
  deriving DecidableEq, Repr

/-- Embeds `CallContractFunc` (lines 347-382): look up the function ABI; only
a stateMutability field equal to the string view selects the read-only call path; every other
mutability goes through `_DoTransaction`, with `value if isPayable else 0`.
`callRet` is the value the node would return for a read-only call. -/
def CallContractFunc (env : DoTxEnv) (callRet : String) (abi : List AbiEntry)
    (funcName : String) (privKey : Option String) (gas : Option ℕ)
    (value : ℕ) (confirmPrompt : Bool)
    (feeCalculator : ℕ → ℕ → ℕ × ℕ) : Except Err CallResult :=
  match _FindFuncAbi funcName abi with
  | .error e => .error e
  | .ok funcAbi =>
    let isViewFunc := funcAbi.stateMutability = "view"
    let isPayable := funcAbi.stateMutability = "payable"
    if isViewFunc then .ok (.viewResult callRet)
    else
      match _DoTransaction env privKey gas (if isPayable then value else 0)
          confirmPrompt feeCalculator with
      | .error e => .error e
      | .ok s => .ok (.txSubmission s)

/-- The chain as seen by `ContractEventHelper.WaitForEvent`
(ContractEventHelper.py lines 32-60): `headAt t` is the block number
returned by the node at its `t`-th reading (`t = 0` is the reading before
the loop; each sleep re-reads it), and `getLogs lo hi` is the log list the
node returns for `event.get_logs(fromBlock=lo, toBlock=hi)`. Block numbers
are `ℤ`, as Python ints (`fromBlock - 1` may be negative). -/
structure EventChain where
  headAt : ℕ → ℤ
  getLogs : ℤ → ℤ → List ℕ

/-- The loop body of `WaitForEvent` (lines 44-60), with explicit state:
`queriedBlkNum`, the last head reading `currBlkNum`, the reading counter
`t`, and the accumulated trace of `(fromBlock, toBlock)` query ranges
issued so far. `fuel` bounds the number of iterations so the embedding is
total; `none` means the Python loop would still be running. -/
def waitLoop (c : EventChain) (fromBlock timeoutByBlkNum : ℤ) :
    ℕ → ℤ → ℤ → ℕ → List (ℤ × ℤ) → Option (List ℕ × List (ℤ × ℤ))
  | 0, _, _, _, _ => none
  | fuel + 1, queriedBlkNum, currBlkNum, t, trace =>
    if queriedBlkNum ≥ currBlkNum then
      waitLoop c fromBlock timeoutByBlkNum fuel
        queriedBlkNum (c.headAt (t + 1)) (t + 1) trace
    else
      let q := queriedBlkNum + 1
      let logs := c.getLogs q q
      let trace := trace ++ [(q, q)]
      if logs ≠ [] then some (logs, trace)
      else if timeoutByBlkNum > 0 ∧ q ≥ fromBlock + timeoutByBlkNum then
        some ([], trace)
      else
        waitLoop c fromBlock timeoutByBlkNum fuel q currBlkNum t trace

/-- Embeds `WaitForEvent` (lines 32-60): poll single blocks starting at
`fromBlock`, sleeping (and refreshing the head) whenever the queried block
catches up with the head; return the first non-empty log list, or the empty
list once `queriedBlkNum ≥ fromBlock + timeoutByBlkNum` for a positive
timeout. The block-period probe only paces the sleeps and does not affect
the result or the query trace, so it is not part of the state. The result
is paired with the trace of issued query ranges. -/
def WaitForEvent (c : EventChain) (fromBlock : ℤ) (timeoutByBlkNum : ℤ)
    (fuel : ℕ) : Option (List ℕ × List (ℤ × ℤ)) :=
  waitLoop c fromBlock timeoutByBlkNum fuel (fromBlock - 1) (c.headAt 0) 0 []

/-! Concrete sample environments, used to instantiate the theorems below on
closed inputs. -/

/-- A concrete chain state. -/
def sampleChainEnv : ChainEnv where
  txCount := 7
  chainId := 1
  gasPrice := 1000
  maxPriorityFee := 3

/-- A concrete signing environment whose key-derivation primitive maps every
key to an address different from the declared sender. -/
def mismatchSignEnv : SignEnv where
  balance := 1000000000
  userConfirms := true
  signedOf := fun _ _ => "signedbytes"
  derivedAddr := fun _ => "0xAAAA"
  sender := "0xBBBB"

/-- A concrete transaction message carrying both fee fields. -/
def sampleFeeTx : TxMsg where
  nonce := 0
  chainId := 1
  gas := 21000
  value := 0
  maxPriorityFeePerGas := some 2
  maxFeePerGas := some 102

/-- A concrete `_DoTransaction` environment. -/
def sampleDoTxEnv : DoTxEnv where
  chain := sampleChainEnv
  estimateFor := fun _ => 100000
  sign := mismatchSignEnv

/-- A chain whose head never advances past 105 and which never has logs. -/
def emptyChain : EventChain where
  headAt := fun _ => 105
  getLogs := fun _ _ => []

/-- A chain with head 110 whose only logs sit in block 103. -/
def foundChain : EventChain where
  headAt := fun _ => 110
  getLogs := fun lo _ => if lo = 103 then [42] else []

/-! Helper lemmas shared by the claim theorems. -/

/-- Unfolding lemma for one iteration of the polling loop. -/
theorem waitLoop_succ (c : EventChain) (fb tmo : ℤ) (fuel : ℕ) (q cur : ℤ)
    (t : ℕ) (trace : List (ℤ × ℤ)) :
    waitLoop c fb tmo (fuel + 1) q cur t trace =
      if q ≥ cur then
        waitLoop c fb tmo fuel q (c.headAt (t + 1)) (t + 1) trace
      else
        let qq := q + 1
        let logs := c.getLogs qq qq
        let trace2 := trace ++ [(qq, qq)]
        if logs ≠ [] then some (logs, trace2)
        else if tmo > 0 ∧ qq ≥ fb + tmo then some ([], trace2)
        else waitLoop c fb tmo fuel qq cur t trace2 := rfl

/-- With both fee fields present, `_SignTx` is the balance guard followed by
the confirmation gate followed by the signing primitive. -/
theorem signTx_eq (env : SignEnv) (tx : TxMsg) (k : String) (cp : Bool)
    (f p : ℕ) (hf : tx.maxFeePerGas = some f)
    (hp : tx.maxPriorityFeePerGas = some p) :
    _SignTx env tx k cp =
      if (f + p) * tx.gas + tx.value > env.balance then
        .error (Err.insufficientBalance env.balance
          ((f + p) * tx.gas + tx.value))
      else if cp && !env.userConfirms then .error Err.cancelled
      else .ok (env.signedOf tx k) := by
  unfold _SignTx
  rw [hf, hp]

/-- The value field of the assembled message is the supplied value. -/
theorem fillMessage_value (env : ChainEnv) (g v : ℕ) (pk : Option String)
    (fc : ℕ → ℕ → ℕ × ℕ) : (_FillMessage env g v pk fc).value = v := by
  cases pk <;> rfl

/-- Whatever `_DoTransaction` submits carries exactly the value it was
asked to send. -/
theorem doTransaction_msg_value (env : DoTxEnv) (pk : Option String)
    (gas : Option ℕ) (v : ℕ) (cp : Bool) (fc : ℕ → ℕ → ℕ × ℕ)
    (sub : Submission)
    (h : _DoTransaction env pk gas v cp fc = .ok sub) :
    sub.msg.value = v := by
  cases pk with
  | none =>
    simp only [_DoTransaction, Except.ok.injEq] at h
    rw [← h]
    simp only [Submission.msg]
    exact fillMessage_value ..
  | some k =>
    simp only [_DoTransaction] at h
    cases hs : _SignTx env.sign
        (_FillMessage env.chain (_DetermineGas gas (env.estimateFor v)) v
          (some k) fc) k cp with
    | error e => rw [hs] at h; simp at h
    | ok s =>
      rw [hs] at h
      simp only [Except.ok.injEq] at h
      rw [← h]
      simp only [Submission.msg]
      exact fillMessage_value ..

/-! The claim theorems. -/

/-- C1: for every `baseGasPrice ≥ 0` and `nodeMinPriorityFee ≥ 0`,
`DefaultFeeCalculator` returns exactly the pair
`(max (baseGasPrice * 2 / 100) nodeMinPriorityFee, baseGasPrice + priorityFee)`;
in particular the priority fee is at least the node floor and at least 2
percent of the base gas price (floor division), with no failure mode. -/
theorem defaultFeeCalculator_correct (baseGasPrice nodeMinPriorityFee : ℕ) :
    DefaultFeeCalculator baseGasPrice nodeMinPriorityFee =
      (max (baseGasPrice * 2 / 100) nodeMinPriorityFee,
        baseGasPrice + max (baseGasPrice * 2 / 100) nodeMinPriorityFee) ∧
    nodeMinPriorityFee ≤
      (DefaultFeeCalculator baseGasPrice nodeMinPriorityFee).1 ∧
    baseGasPrice * 2 / 100 ≤
      (DefaultFeeCalculator baseGasPrice nodeMinPriorityFee).1 ∧
    (DefaultFeeCalculator baseGasPrice nodeMinPriorityFee).2 =
      baseGasPrice + (DefaultFeeCalculator baseGasPrice nodeMinPriorityFee).1 := by
  refine ⟨rfl, ?_, ?_, rfl⟩
  · exact le_max_right _ _
  · exact le_max_left _ _

set_option maxRecDepth 40000 in
/-- C2 counterexample: at estimator result `10^17` the code (binary64
evaluation of `int(estimate * 1.1)`) yields `110000000000000016`, which is
not the integer floor of `estimate * 1.1` (that floor is
`110000000000000000`). -/
theorem determineGas_floor_counterexample :
    _DetermineGas none 100000000000000000 = 110000000000000016 ∧
    100000000000000000 * 11 / 10 = 110000000000000000 ∧
    _DetermineGas none 100000000000000000 ≠
      100000000000000000 * 11 / 10 := by
  refine ⟨by decide, by norm_num, by decide⟩

set_option maxRecDepth 40000 in
/-- C2 (amended): with no explicit gas limit, gas resolution returns the
Python value `int(estimate * 1.1)` under IEEE-754 binary64 arithmetic; this
agrees with the integer floor of `estimate * 1.1` on the example of the
specification (`100000 ↦ 110000`) and at ordinary gas magnitudes such as
`30000000 ↦ 33000000`, but not for every estimate. -/
theorem determineGas_float_semantics (estimate : ℕ) :
    _DetermineGas none estimate = pyIntTimes11 estimate ∧
    _DetermineGas none 100000 = 110000 ∧
    _DetermineGas none 100000 = 100000 * 11 / 10 ∧
    _DetermineGas none 30000000 = 33000000 ∧
    _DetermineGas none 30000000 = 30000000 * 11 / 10 :=
  ⟨rfl, by decide, by decide, by decide, by decide⟩

/-- C3: with both fee fields present, `_SignTx` raises the
insufficient-balance error exactly when
`(maxFeePerGas + maxPriorityFeePerGas) * gas + value` exceeds the account
balance; at the boundary `maxCost = balance` the transaction is accepted
(signed) whenever the separate confirmation gate passes. -/
theorem signTx_balance_guard (env : SignEnv) (tx : TxMsg) (k : String)
    (cp : Bool) (f p : ℕ) (hf : tx.maxFeePerGas = some f)
    (hp : tx.maxPriorityFeePerGas = some p) :
    ((∃ b mc, _SignTx env tx k cp = .error (Err.insufficientBalance b mc)) ↔
      (f + p) * tx.gas + tx.value > env.balance) ∧
    ((f + p) * tx.gas + tx.value = env.balance →
      (cp = false ∨ env.userConfirms = true) →
      _SignTx env tx k cp = .ok (env.signedOf tx k)) := by
  rw [signTx_eq env tx k cp f p hf hp]
  by_cases hgt : (f + p) * tx.gas + tx.value > env.balance
  · rw [if_pos hgt]
    refine ⟨⟨fun _ => hgt, fun _ => ⟨env.balance, _, rfl⟩⟩, fun heq _ => ?_⟩
    omega
  · rw [if_neg hgt]
    refine ⟨⟨fun hex => ?_, fun hlt => absurd hlt hgt⟩, fun _ hgate => ?_⟩
    · obtain ⟨b, mc, hbm⟩ := hex
      by_cases hcp : (cp && !env.userConfirms) = true
      · rw [if_pos hcp] at hbm; cases hbm
      · rw [if_neg (by simpa using hcp)] at hbm; cases hbm
    · have hcp : (cp && !env.userConfirms) = false := by
        rcases hgate with h1 | h2
        · simp [h1]
        · simp [h2]
      rw [if_neg (by simp [hcp])]

/-- C3 witness: a concrete boundary instance (`maxCost = balance = 2184000`)
where `_SignTx` signs, and a concrete overspending instance rejected with
the insufficient-balance error. -/
theorem signTx_balance_guard_witness :
    _SignTx
      { balance := 2184000, userConfirms := true,
        signedOf := fun _ _ => "signedbytes",
        derivedAddr := fun _ => "0xAAAA", sender := "0xAAAA" }
      sampleFeeTx "0xkey" false =
      .ok "signedbytes" :=
  (signTx_balance_guard
    { balance := 2184000, userConfirms := true,
      signedOf := fun _ _ => "signedbytes",
      derivedAddr := fun _ => "0xAAAA", sender := "0xAAAA" }
    sampleFeeTx "0xkey" false 102 2 rfl rfl).2 (by decide) (Or.inl rfl)

/-- C4 counterexample: the signing step performs no key-address check: in a
concrete environment whose derived address differs from the declared
sender, `_SignTx` still signs and returns the signed bytes, and the full
signed path of `_DoTransaction` submits the raw transaction, instead of
failing with a key-mismatch error. -/
theorem signTx_signs_despite_key_mismatch :
    mismatchSignEnv.derivedAddr "0xkey" ≠ mismatchSignEnv.sender ∧
    _SignTx mismatchSignEnv sampleFeeTx "0xkey" false = .ok "signedbytes" ∧
    _DoTransaction sampleDoTxEnv (some "0xkey") (some 21000) 0 false
        DefaultFeeCalculator =
      .ok (.raw "signedbytes"
        { nonce := 7, chainId := 1, gas := 21000, value := 0,
          maxPriorityFeePerGas := some 20, maxFeePerGas := some 1020 }) := by
  exact ⟨by decide, rfl, rfl⟩

/-- C4 (amended): the key/sender consistency check lives in
`SetupSendingAccount`, not in the signing step: when a key file supplies an
address/key pair, `SetupSendingAccount` fails with the key-mismatch error
exactly when the address derived from the key differs from the selected
address, and otherwise hands the key on. -/
theorem setupSendingAccount_key_mismatch (derivedAddr : String → String)
    (nodeAccount0 addr privKey : String) :
    (SetupSendingAccount derivedAddr nodeAccount0 (some (addr, privKey)) =
        .error Err.keyMismatch ↔ derivedAddr privKey ≠ addr) ∧
    (derivedAddr privKey = addr →
      SetupSendingAccount derivedAddr nodeAccount0 (some (addr, privKey)) =
        .ok (addr, some privKey)) := by
  unfold SetupSendingAccount
  by_cases h : derivedAddr privKey = addr <;> simp [h]

/-- C4 witness: a concrete matching pair is handed on, per the amended
claim applied at a key whose derived address equals the selected one. -/
theorem setupSendingAccount_key_mismatch_witness :
    SetupSendingAccount (fun _ => "0xAAAA") "0xNODE"
        (some ("0xAAAA", "0xkey")) =
      .ok ("0xAAAA", some "0xkey") :=
  (setupSendingAccount_key_mismatch (fun _ => "0xAAAA") "0xNODE" "0xAAAA"
    "0xkey").2 rfl

/-- C5: started at `fromBlock = 100` with `timeoutByBlkNum = 5`, on a chain
whose head never moves (and already reaches block 105) and which has no
matching logs, the poller issues exactly the single-block queries
`(100,100) … (105,105)`, returns the empty list, and never queries block
106. -/
theorem waitForEvent_timeout_scenario (c : EventChain)
    (hlogs : ∀ b : ℤ, 100 ≤ b → b ≤ 105 → c.getLogs b b = [])
    (_hnonew : ∀ t : ℕ, c.headAt t = c.headAt 0)
    (hhead : 105 ≤ c.headAt 0) :
    WaitForEvent c 100 5 6 =
      some ([], [(100, 100), (101, 101), (102, 102), (103, 103), (104, 104),
        (105, 105)]) := by
  have h100 := hlogs 100 (by norm_num) (by norm_num)
  have h101 := hlogs 101 (by norm_num) (by norm_num)
  have h102 := hlogs 102 (by norm_num) (by norm_num)
  have h103 := hlogs 103 (by norm_num) (by norm_num)
  have h104 := hlogs 104 (by norm_num) (by norm_num)
  have h105 := hlogs 105 (by norm_num) (by norm_num)
  have e1 : ¬((99 : ℤ) ≥ c.headAt 0) := by omega
  have e2 : ¬((100 : ℤ) ≥ c.headAt 0) := by omega
  have e3 : ¬((101 : ℤ) ≥ c.headAt 0) := by omega
  have e4 : ¬((102 : ℤ) ≥ c.headAt 0) := by omega
  have e5 : ¬((103 : ℤ) ≥ c.headAt 0) := by omega
  have e6 : ¬((104 : ℤ) ≥ c.headAt 0) := by omega
  unfold WaitForEvent
  norm_num [show (6:ℕ) = 5+1 from rfl, show (5:ℕ) = 4+1 from rfl,
    show (4:ℕ) = 3+1 from rfl, show (3:ℕ) = 2+1 from rfl,
    show (2:ℕ) = 1+1 from rfl, show (1:ℕ) = 0+1 from rfl,
    waitLoop_succ, e1, e2, e3, e4, e5, e6, h100, h101, h102, h103, h104, h105]

/-- C5 witness: the scenario run on the concrete chain with constant head
105 and no logs anywhere. -/
theorem waitForEvent_timeout_scenario_witness :
    WaitForEvent emptyChain 100 5 6 =
      some ([], [(100, 100), (101, 101), (102, 102), (103, 103), (104, 104),
        (105, 105)]) :=
  waitForEvent_timeout_scenario emptyChain (fun _ _ _ => rfl) (fun _ => rfl)
    (by decide)

/-- C6: started at `fromBlock = 100` on a chain whose blocks 100-102 hold no
matching log but whose block 103 does, the poller (with the unbounded
default timeout) issues exactly the single-block queries
`(100,100) … (103,103)`, returns exactly the logs of block 103, and never
queries block 104 or beyond. -/
theorem waitForEvent_found_scenario (c : EventChain) (L : List ℕ)
    (hL : L ≠ [])
    (hbefore : ∀ b : ℤ, 100 ≤ b → b ≤ 102 → c.getLogs b b = [])
    (h103 : c.getLogs 103 103 = L)
    (hhead : 103 ≤ c.headAt 0) :
    WaitForEvent c 100 (-1) 4 =
      some (L, [(100, 100), (101, 101), (102, 102), (103, 103)]) := by
  have h100 := hbefore 100 (by norm_num) (by norm_num)
  have h101 := hbefore 101 (by norm_num) (by norm_num)
  have h102 := hbefore 102 (by norm_num) (by norm_num)
  have e1 : ¬((99 : ℤ) ≥ c.headAt 0) := by omega
  have e2 : ¬((100 : ℤ) ≥ c.headAt 0) := by omega
  have e3 : ¬((101 : ℤ) ≥ c.headAt 0) := by omega
  have e4 : ¬((102 : ℤ) ≥ c.headAt 0) := by omega
  unfold WaitForEvent
  norm_num [show (4:ℕ) = 3+1 from rfl, show (3:ℕ) = 2+1 from rfl,
    show (2:ℕ) = 1+1 from rfl, show (1:ℕ) = 0+1 from rfl,
    waitLoop_succ, e1, e2, e3, e4, h100, h101, h102, h103, hL]

/-- C6 witness: the scenario run on the concrete chain with head 110 whose
only logs sit in block 103. -/
theorem waitForEvent_found_scenario_witness :
    WaitForEvent foundChain 100 (-1) 4 =
      some ([42], [(100, 100), (101, 101), (102, 102), (103, 103)]) :=
  waitForEvent_found_scenario foundChain [42] (by decide)
    (fun b hb1 hb2 => by
      show (if b = 103 then [42] else []) = []
      rw [if_neg (by omega)])
    (by decide) (by decide)

/-- C7: the assembled message always carries nonce, chain id, gas and
value; it carries both fee fields exactly when a private key is supplied,
and then their values are exactly the pair the fee calculator returns on
the live gas price and priority-fee floor. -/
theorem fillMessage_fields (env : ChainEnv) (gas value : ℕ)
    (privKey : Option String) (fc : ℕ → ℕ → ℕ × ℕ) :
    ((_FillMessage env gas value privKey fc).nonce = env.txCount ∧
      (_FillMessage env gas value privKey fc).chainId = env.chainId ∧
      (_FillMessage env gas value privKey fc).gas = gas ∧
      (_FillMessage env gas value privKey fc).value = value) ∧
    (((_FillMessage env gas value privKey fc).maxPriorityFeePerGas.isSome =
          true ∧
        (_FillMessage env gas value privKey fc).maxFeePerGas.isSome = true) ↔
      privKey.isSome = true) ∧
    (privKey.isSome = true →
      (_FillMessage env gas value privKey fc).maxPriorityFeePerGas =
        some (fc env.gasPrice env.maxPriorityFee).1 ∧
      (_FillMessage env gas value privKey fc).maxFeePerGas =
        some (fc env.gasPrice env.maxPriorityFee).2) := by
  cases privKey <;> simp [_FillMessage]

/-- C7 witness: on a concrete signing-path message the two fee fields are
exactly the fee-calculator pair for the live chain state. -/
theorem fillMessage_fields_witness :
    (_FillMessage sampleChainEnv 21000 5 (some "0xkey")
        DefaultFeeCalculator).maxPriorityFeePerGas =
      some (DefaultFeeCalculator 1000 3).1 ∧
    (_FillMessage sampleChainEnv 21000 5 (some "0xkey")
        DefaultFeeCalculator).maxFeePerGas =
      some (DefaultFeeCalculator 1000 3).2 :=
  (fillMessage_fields sampleChainEnv 21000 5 (some "0xkey")
    DefaultFeeCalculator).2.2 rfl

/-- C8: whenever `DeployContract` submits, the submitted transaction
carries value 0 if the constructor entry found in the ABI is not payable,
and the caller-supplied value if it is. -/
theorem deployContract_value_zeroing (env : DoTxEnv) (abi : List AbiEntry)
    (constrAbi : AbiEntry) (pk : Option String) (gas : Option ℕ)
    (value : ℕ) (cp : Bool) (fc : ℕ → ℕ → ℕ × ℕ) (sub : Submission)
    (hfind : _FindConstructorAbi abi = .ok constrAbi)
    (hsub : DeployContract env abi pk gas value cp fc = .ok sub) :
    (constrAbi.stateMutability ≠ "payable" → sub.msg.value = 0) ∧
    (constrAbi.stateMutability = "payable" → sub.msg.value = value) := by
  unfold DeployContract at hsub
  rw [hfind] at hsub
  by_cases hpay : constrAbi.stateMutability = "payable"
  · simp only [hpay, if_pos] at hsub
    exact ⟨fun h => absurd hpay h,
      fun _ => doTransaction_msg_value _ _ _ _ _ _ _ hsub⟩
  · simp only [hpay, if_neg] at hsub
    exact ⟨fun _ => doTransaction_msg_value _ _ _ _ _ _ _ hsub,
      fun h => absurd h hpay⟩

/-- C8 witness: deploying through a concrete non-payable constructor with a
supplied value of 5 wei submits a transaction of value 0. -/
theorem deployContract_value_zeroing_witness :
    (Submission.delegated
        { nonce := 7, chainId := 1, gas := 21000, value := 0 }).msg.value =
      0 :=
  (deployContract_value_zeroing sampleDoTxEnv
    [{ type := "constructor", stateMutability := "nonpayable" }]
    { type := "constructor", stateMutability := "nonpayable" }
    none (some 21000) 5 false DefaultFeeCalculator
    (Submission.delegated { nonce := 7, chainId := 1, gas := 21000, value := 0 })
    rfl rfl).1 (by decide)

/-- C10: a contract function declared `pure` does not take the read-only
call path: `CallContractFunc` runs the full transaction pipeline on it with
the supplied value zeroed, and hands back the submission outcome (a
receipt), never a decoded return value. -/
theorem callContractFunc_pure_tx_path (env : DoTxEnv) (callRet : String)
    (abi : List AbiEntry) (funcName : String) (funcAbi : AbiEntry)
    (pk : Option String) (gas : Option ℕ) (value : ℕ) (cp : Bool)
    (fc : ℕ → ℕ → ℕ × ℕ)
    (hfind : _FindFuncAbi funcName abi = .ok funcAbi)
    (hpure : funcAbi.stateMutability = "pure") :
    CallContractFunc env callRet abi funcName pk gas value cp fc =
      Except.map CallResult.txSubmission
        (_DoTransaction env pk gas 0 cp fc) := by
  unfold CallContractFunc
  rw [hfind]
  have hview : ¬(funcAbi.stateMutability = "view") := by
    rw [hpure]; decide
  have hpay : ¬(funcAbi.stateMutability = "payable") := by
    rw [hpure]; decide
  simp only [if_neg hview, if_neg hpay, if_false]
  cases _DoTransaction env pk gas 0 cp fc <;> rfl

/-- C10 witness: a concrete `pure` function goes through the transaction
pipeline with value 0. -/
theorem callContractFunc_pure_tx_path_witness :
    CallContractFunc sampleDoTxEnv "ret"
        [{ type := "function", name := "f", stateMutability := "pure" }] "f"
        none (some 21000) 5 false DefaultFeeCalculator =
      Except.map CallResult.txSubmission
        (_DoTransaction sampleDoTxEnv none (some 21000) 0 false
          DefaultFeeCalculator) :=
  callContractFunc_pure_tx_path sampleDoTxEnv "ret"
    [{ type := "function", name := "f", stateMutability := "pure" }] "f"
    { type := "function", name := "f", stateMutability := "pure" }
    none (some 21000) 5 false DefaultFeeCalculator rfl rfl

end PyEthHelper
